import Mathlib

/-!
Shallow embedding of the authentication, session and entitlement core of
the smart-stock-bot backend (apps/api/app/services/auth.py,
apps/api/app/api/v1/auth.py, apps/api/app/core/entitlements.py).

Timestamps are naturals (seconds).  The cryptographic helpers from
app/core/security.py (hashing, TOTP verification, token generation) are
external collaborators and are modelled as uninterpreted functions bundled
in an `Env` record; the control flow of the service itself is translated
statement by statement.  Database rows are Lean structures, the database
is a record of lists of rows, and each service method is a function from
the database (plus its arguments) to the updated database and its result,
with Python `raise ValueError(msg)` rendered as `Except.error msg`.
-/

namespace SSB

/-- Timestamps, in seconds since some epoch. -/
abbrev Time := Nat

/-- Row of the `users` table (app/models/user.py). -/
structure User where
  id : Nat
  email : String
  password_hash : String
  full_name : String := ""
  email_verified : Bool := false
  email_verification_token : Option String := none
  email_verification_sent_at : Option Time := none
  mfa_enabled : Bool := false
  mfa_secret : Option String := none
  is_locked : Bool := false
  failed_login_attempts : Nat := 0
  locked_until : Option Time := none
  last_login_at : Option Time := none
  password_reset_token : Option String := none
  password_reset_sent_at : Option Time := none
  deleted_at : Option Time := none
  deriving Repr, DecidableEq

/-- Row of the `sessions` table: one row per issued refresh token. -/
structure Session where
  id : Nat
  user_id : Nat
  refresh_token_hash : String
  expires_at : Time
  is_revoked : Bool := false
  revoked_at : Option Time := none
  is_used : Bool := false
  used_at : Option Time := none
  deriving Repr, DecidableEq

/-- Row of the `mfa_backup_codes` table. -/
structure MFABackupCode where
  id : Nat
  user_id : Nat
  code_hash : String
  is_used : Bool := false
  used_at : Option Time := none
  deriving Repr, DecidableEq

/-- Audit log entry (only the fields the claims talk about). -/
structure AuditLog where
  user_id : Option Nat
  action : String
  success : Bool
  deriving Repr, DecidableEq

/-- The authentication database: users, sessions, backup codes, audit log,
plus fresh-id counters standing for the primary-key generator. -/
structure DB where
  users : List User
  sessions : List Session
  backup_codes : List MFABackupCode
  audit_logs : List AuditLog
  next_user_id : Nat := 0
  next_session_id : Nat := 0
  deriving Repr, DecidableEq

/-- External collaborators of the auth service (app/core/security.py and
the clock): uninterpreted hashing/verification functions and the current
time.  `verify_password plain hash` and `verify_totp secret code` are the
constant-time checks; `hash_token` / `hash_password` are the one-way
hashes; `create_access_token` / `create_refresh_token` mint the JWTs for a
given subject id. -/
structure Env where
  now : Time
  hash_token : String → String
  hash_password : String → String
  verify_password : String → String → Bool
  verify_totp : String → String → Bool
  decrypt_field : String → String
  create_access_token : Nat → String
  create_refresh_token : Nat → String
  generate_secure_token : String

/-- MAX_FAILED_ATTEMPTS from services/auth.py. -/
def MAX_FAILED_ATTEMPTS : Nat := 5

/-- LOCKOUT_DURATION_MINUTES from services/auth.py. -/
def LOCKOUT_DURATION_MINUTES : Nat := 30

/-- Overwrite, in a list of rows, every row carrying the key of `b` with
`b` itself: the effect of mutating a fetched ORM row and committing. -/
def overwriteBy {α : Type} (key : α → Nat) (l : List α) (b : α) : List α :=
  l.map (fun x => if key x == key b then b else x)

/-- Commit a mutated user row. -/
def writeUser (db : DB) (u : User) : DB :=
  { db with users := overwriteBy User.id db.users u }

/-- Commit a mutated backup-code row. -/
def writeBackupCode (db : DB) (c : MFABackupCode) : DB :=
  { db with backup_codes := overwriteBy MFABackupCode.id db.backup_codes c }

/-- Append an audit log entry (`AuthService._create_audit_log`). -/
def addAudit (db : DB) (uid : Option Nat) (action : String) (success : Bool) : DB :=
  { db with audit_logs := db.audit_logs ++ [{ user_id := uid, action := action, success := success }] }

/-- `select(User).where(User.email == email, User.deleted_at.is_(None))`
followed by `scalar_one_or_none()`. -/
def findUserByEmail (db : DB) (email : String) : Option User :=
  db.users.find? (fun u => u.email == email && u.deleted_at == none)

/-- Look a user up by primary key in the current database state. -/
def userById (db : DB) (uid : Nat) : Option User :=
  db.users.find? (fun u => u.id == uid)

/-- Look a backup code up by primary key in the current database state. -/
def backupCodeById (db : DB) (cid : Nat) : Option MFABackupCode :=
  db.backup_codes.find? (fun c => c.id == cid)

/-- Is the account lock still active (`locked_until and locked_until > utcnow()`)? -/
def lockActive (env : Env) (u : User) : Bool :=
  match u.locked_until with
  | some t => env.now < t
  | none => false

/-- Embedding of `AuthService.authenticate_user` (services/auth.py,
lines 144-239).  Returns the updated database, the authenticated user row
(`none` on any rejection) and the `requires_mfa` flag. -/
def authenticate_user (env : Env) (db : DB) (email password : String) :
    DB × Option User × Bool :=
  match findUserByEmail db email with
  | none =>
      (addAudit db none "login_failed" false, none, false)
  | some user =>
      if user.is_locked && lockActive env user then
        (addAudit db (some user.id) "login_failed" false, none, false)
      else
        let user1 :=
          if user.is_locked then
            { user with is_locked := false, locked_until := none, failed_login_attempts := 0 }
          else user
        if !(env.verify_password password user1.password_hash) then
          let n := user1.failed_login_attempts + 1
          let user2 :=
            if MAX_FAILED_ATTEMPTS ≤ n then
              { user1 with failed_login_attempts := n, is_locked := true,
                           locked_until := some (env.now + LOCKOUT_DURATION_MINUTES * 60) }
            else
              { user1 with failed_login_attempts := n }
          (addAudit (writeUser db user2) (some user.id) "login_failed" false, none, false)
        else
          let user2 := { user1 with failed_login_attempts := 0 }
          if user2.mfa_enabled then
            (writeUser db user2, some user2, true)
          else
            let user3 := { user2 with last_login_at := some env.now }
            (addAudit (writeUser db user3) (some user3.id) "login" true, some user3, false)

/-- Python's `str.upper()` on a code, written over the character list so
that it computes by structural recursion. -/
def strUpper (s : String) : String := String.mk (s.data.map Char.toUpper)

/-- Python's `str.isdigit()` on a candidate code, written over the
character list so that it computes by structural recursion. -/
def allDigits (s : String) : Bool := s.data.all Char.isDigit

/-- Python's falsiness check for an optional string: `None` and `""` are
falsy. -/
def strFalsy : Option String → Bool
  | none => true
  | some s => s.data.isEmpty

/-- `select(MFABackupCode).where(user_id == ..., is_used == False)` --
the unused backup codes of a user, in table order. -/
def unusedBackupCodes (db : DB) (uid : Nat) : List MFABackupCode :=
  db.backup_codes.filter (fun c => c.user_id == uid && c.is_used == false)

/-- Embedding of `AuthService.verify_mfa_and_complete_login`
(services/auth.py, lines 241-312).  On the TOTP branch: only a 6-digit
all-digit code that passes `verify_totp` succeeds there; every other code
(including a 6-digit code that fails TOTP) falls through to the
backup-code scan, exactly as in the source. -/
def verify_mfa_and_complete_login (env : Env) (db : DB) (user : User) (mfa_code : String) :
    DB × Except String Bool :=
  match user.mfa_secret with
  | none => (db, .error "MFA is not enabled")
  | some secret_enc =>
      if !user.mfa_enabled || strFalsy (some secret_enc) then
        (db, .error "MFA is not enabled")
      else
        let mfa_secret := env.decrypt_field secret_enc
        if mfa_code.length == 6 && allDigits mfa_code &&
            env.verify_totp mfa_secret mfa_code then
          let db1 := writeUser db { user with last_login_at := some env.now }
          (addAudit db1 (some user.id) "login_mfa_success" true, .ok true)
        else
          match (unusedBackupCodes db user.id).find?
              (fun c => env.verify_password (strUpper mfa_code) c.code_hash) with
          | some bc =>
              let db1 := writeBackupCode db { bc with is_used := true, used_at := some env.now }
              let db2 := writeUser db1 { user with last_login_at := some env.now }
              (addAudit db2 (some user.id) "login_mfa_backup_code_used" true, .ok true)
          | none =>
              (addAudit db (some user.id) "login_mfa_failed" false, .error "Invalid MFA code")

/-- Embedding of `AuthService.create_session` (services/auth.py,
lines 314-344): mint an access/refresh pair and insert a Session row
holding the hash of the refresh token, expiring 7 days out. -/
def create_session (env : Env) (db : DB) (uid : Nat) : DB × String × String :=
  let access_token := env.create_access_token uid
  let refresh_token := env.create_refresh_token uid
  let s : Session :=
    { id := db.next_session_id
      user_id := uid
      refresh_token_hash := env.hash_token refresh_token
      expires_at := env.now + 7 * 86400 }
  ({ db with sessions := db.sessions ++ [s], next_session_id := db.next_session_id + 1 },
   access_token, refresh_token)

/-- `select(Session).where(refresh_token_hash == token_hash, is_revoked == False)`
followed by `scalar_one_or_none()`: the session lookup in `refresh_session`
excludes revoked rows. -/
def findActiveSessionByHash (db : DB) (h : String) : Option Session :=
  db.sessions.find? (fun s => s.refresh_token_hash == h && s.is_revoked == false)

/-- Embedding of `AuthService._revoke_all_user_sessions` (services/auth.py,
lines 594-609): mark every non-revoked session of the user revoked. -/
def revoke_all_user_sessions (env : Env) (db : DB) (uid : Nat) : DB :=
  { db with sessions := db.sessions.map (fun s =>
      if s.user_id == uid && s.is_revoked == false then
        { s with is_revoked := true, revoked_at := some env.now }
      else s) }

/-- Embedding of `AuthService.refresh_session` (services/auth.py,
lines 346-400): look the presented token's hash up among non-revoked
sessions; reject if absent or expired; if the row is already marked used,
revoke every session of the owner and reject with the reuse error;
otherwise mark it used and rotate to a fresh pair. -/
def refresh_session (env : Env) (db : DB) (refresh_token : String) :
    DB × Except String (String × String) :=
  let token_hash := env.hash_token refresh_token
  match findActiveSessionByHash db token_hash with
  | none => (db, .error "Invalid refresh token")
  | some session =>
      if session.expires_at < env.now then
        (db, .error "Refresh token has expired")
      else if session.is_used then
        (revoke_all_user_sessions env db session.user_id,
         .error "Token reuse detected. All sessions have been revoked.")
      else
        let used := { session with is_used := true, used_at := some env.now }
        let db1 := { db with sessions := overwriteBy Session.id db.sessions used }
        let (db2, access_token, new_refresh_token) := create_session env db1 session.user_id
        (db2, .ok (access_token, new_refresh_token))

/-- Embedding of `AuthService.create_user` (services/auth.py, lines 43-99):
reject when a non-soft-deleted user already holds the email, otherwise
insert the new user row.  Returns the new user's id. -/
def create_user (env : Env) (db : DB) (email password full_name : String) :
    DB × Except String Nat :=
  match findUserByEmail db email with
  | some _ => (db, .error "Email already registered")
  | none =>
      let uid := db.next_user_id
      let user : User :=
        { id := uid
          email := email
          password_hash := env.hash_password password
          full_name := full_name
          email_verification_token := some (env.hash_token env.generate_secure_token)
          email_verification_sent_at := some env.now }
      (addAudit { db with users := db.users ++ [user], next_user_id := uid + 1 }
        (some uid) "signup" true, .ok uid)

/-- Embedding of `AuthService.initiate_password_reset` (services/auth.py,
lines 523-550): always returns `None`; only when the email matches a live
user does it stamp a hashed reset token on the row. -/
def initiate_password_reset (env : Env) (db : DB) (email : String) : DB :=
  match findUserByEmail db email with
  | none => db
  | some user =>
      writeUser db
        { user with
          password_reset_token := some (env.hash_token env.generate_secure_token)
          password_reset_sent_at := some env.now }

/-- `select(User).where(password_reset_token == token_hash, deleted_at is None)`
followed by `scalar_one_or_none()`. -/
def findUserByResetToken (db : DB) (token_hash : String) : Option User :=
  db.users.find? (fun u => u.password_reset_token == some token_hash && u.deleted_at == none)

/-- Embedding of `AuthService.reset_password` (services/auth.py,
lines 552-592): validate the token, check the 1-hour freshness window,
replace the password hash, clear the reset token and revoke every
session of the user. -/
def reset_password (env : Env) (db : DB) (token new_password : String) :
    DB × Except String Unit :=
  let token_hash := env.hash_token token
  match findUserByResetToken db token_hash with
  | none => (db, .error "Invalid reset token")
  | some user =>
      let fresh : Bool :=
        match user.password_reset_sent_at with
        | some sent_at => !(sent_at + 3600 < env.now)
        | none => true
      if !fresh then
        (db, .error "Reset token has expired")
      else
        let user1 :=
          { user with
            password_hash := env.hash_password new_password
            password_reset_token := none
            password_reset_sent_at := none }
        (revoke_all_user_sessions env (writeUser db user1) user.id, .ok ())

/-- Response body of the login endpoint (only the fields the claims
mention). -/
structure LoginResponse where
  access_token : String
  requires_mfa : Bool
  deriving Repr, DecidableEq

/-- An HTTP error: status code and detail string. -/
abbrev HttpError := Nat × String

/-- Embedding of the `POST /login` endpoint (api/v1/auth.py, lines 77-148):
every rejection coming out of `authenticate_user` is surfaced as the one
fixed 401 response. -/
def login (env : Env) (db : DB) (email password : String) (mfa_code : Option String) :
    DB × Except HttpError LoginResponse :=
  match authenticate_user env db email password with
  | (db1, none, _) => (db1, .error (401, "Invalid email or password"))
  | (db1, some user, requires_mfa) =>
      if requires_mfa then
        match mfa_code with
        | some code =>
            match verify_mfa_and_complete_login env db1 user code with
            | (db2, .error e) => (db2, .error (401, e))
            | (db2, .ok _) =>
                let (db3, access_token, _) := create_session env db2 user.id
                (db3, .ok { access_token := access_token, requires_mfa := false })
        | none => (db1, .ok { access_token := "", requires_mfa := true })
      else
        let (db2, access_token, _) := create_session env db1 user.id
        (db2, .ok { access_token := access_token, requires_mfa := false })

/-- Embedding of the `POST /mfa/verify` endpoint (api/v1/auth.py,
lines 151-205): any `ValueError` from the service layer -- including the
absent-secret case -- is surfaced as HTTP 401 with the error's message. -/
def verify_mfa_endpoint (env : Env) (db : DB) (email mfa_code : String) :
    DB × Except HttpError LoginResponse :=
  match findUserByEmail db email with
  | none => (db, .error (401, "Invalid credentials"))
  | some user =>
      match verify_mfa_and_complete_login env db user mfa_code with
      | (db1, .error e) => (db1, .error (401, e))
      | (db1, .ok _) =>
          let (db2, access_token, _) := create_session env db1 user.id
          (db2, .ok { access_token := access_token, requires_mfa := false })

/-- Embedding of the `POST /forgot-password` endpoint (api/v1/auth.py,
lines 329-345): the response body is one fixed message. -/
def forgot_password (env : Env) (db : DB) (email : String) : DB × String :=
  (initiate_password_reset env db email,
   "If the email exists, a password reset link has been sent")

/-- Row of `user_subscriptions` (app/models/billing.py), as read by
`get_entitlements`. -/
structure UserSubscription where
  user_id : Nat
  plan_id : Nat
  status : String
  deriving Repr, DecidableEq

/-- Row of `subscription_plans`. -/
structure SubscriptionPlan where
  id : Nat
  name : String
  deriving Repr, DecidableEq

/-- Row of `plan_features`. -/
structure PlanFeature where
  plan_id : Nat
  feature_key : String
  feature_value : String
  deriving Repr, DecidableEq

/-- The billing store read by entitlement resolution. -/
structure BillingDB where
  subscriptions : List UserSubscription
  plans : List SubscriptionPlan
  plan_features : List PlanFeature
  deriving Repr, DecidableEq

/-- The cached entitlements payload: plan name and feature map. -/
abbrev CachedEntitlements := String × List (String × String)

/-- The Redis collaborator of `get_entitlements`, as seen by one request:
the outcome of the initial `redis.get` (which may raise) and whether the
trailing `redis.setex` succeeds.  Both calls sit inside the function's
single `try` block. -/
structure CacheEnv where
  get : Except Unit (Option CachedEntitlements)
  set_ok : Bool
  deriving Repr

/-- The `Entitlements` object (core/entitlements.py, lines 25-43). -/
structure Entitlements where
  plan_name : String
  features : List (String × String)
  user_id : Nat
  deriving Repr, DecidableEq

/-- The hardcoded free-plan defaults of core/entitlements.py,
lines 232-238. -/
def hardcoded_free_defaults : List (String × String) :=
  [("live_trading_enabled", "false"),
   ("signal_delay_minutes", "15"),
   ("max_watchlist_symbols", "5"),
   ("daily_api_requests", "100"),
   ("realtime_alerts_enabled", "false")]

/-- `select(PlanFeature).where(PlanFeature.plan_id == plan_id)` turned into
the `{feature_key: feature_value}` dictionary. -/
def features_for_plan (bdb : BillingDB) (plan_id : Nat) : List (String × String) :=
  (bdb.plan_features.filter (fun f => f.plan_id == plan_id)).map
    (fun f => (f.feature_key, f.feature_value))

/-- The 500 response raised by the catch-all `except` of `get_entitlements`. -/
def entitlementsFailure : HttpError := (500, "Failed to load user entitlements")

/-- Embedding of `get_entitlements` (core/entitlements.py, lines 134-265).
The whole body -- the cache read, the store queries and the cache write --
sits inside one `try` whose `except Exception` clause raises HTTP 500, so
any raising cache call surfaces as `entitlementsFailure`; the free-plan /
hardcoded-default fallback only applies when no call raises and the user
has no active subscription. -/
def get_entitlements (cache : CacheEnv) (bdb : BillingDB) (uid : Nat) :
    Except HttpError Entitlements :=
  match cache.get with
  | .error _ => .error entitlementsFailure
  | .ok (some cached) =>
      .ok { plan_name := cached.1, features := cached.2, user_id := uid }
  | .ok none =>
      match bdb.subscriptions.find? (fun s => s.user_id == uid && s.status == "active") with
      | some sub =>
          match bdb.plans.find? (fun p => p.id == sub.plan_id) with
          | none => .error entitlementsFailure
          | some plan =>
              if cache.set_ok then
                .ok { plan_name := plan.name, features := features_for_plan bdb sub.plan_id,
                      user_id := uid }
              else .error entitlementsFailure
      | none =>
          match bdb.plans.find? (fun p => p.name == "free") with
          | some free_plan =>
              if cache.set_ok then
                .ok { plan_name := "free", features := features_for_plan bdb free_plan.id,
                      user_id := uid }
              else .error entitlementsFailure
          | none =>
              if cache.set_ok then
                .ok { plan_name := "free", features := hardcoded_free_defaults, user_id := uid }
              else .error entitlementsFailure

/-- A concrete environment for evaluating the model: hashes are the
identity, password verification is string equality, TOTP accepts only
"111111", and the clock reads 100000. -/
def testEnv : Env :=
  { now := 100000
    hash_token := fun s => s
    hash_password := fun s => s
    verify_password := fun p h => p == h
    verify_totp := fun _ c => c == "111111"
    decrypt_field := fun s => s
    create_access_token := fun n => "AT" ++ toString n
    create_refresh_token := fun n => "RT" ++ toString n
    generate_secure_token := "fresh-token" }

/-- Writing row `b` back makes it the first row found under its key,
provided some row with that key was present. -/
theorem find_overwriteBy {α : Type} (key : α → Nat) (l : List α) (a b : α)
    (hmem : a ∈ l) (hkey : key b = key a) :
    (overwriteBy key l b).find? (fun x => key x == key a) = some b := by
  induction l with
  | nil => cases hmem
  | cons hd tl ih =>
      by_cases hhd : key hd = key b
      · have hstep : overwriteBy key (hd :: tl) b = b :: overwriteBy key tl b := by
          simp [overwriteBy, hhd]
        rw [hstep, List.find?_cons_of_pos]
        simp [hkey]
      · have hstep : overwriteBy key (hd :: tl) b = hd :: overwriteBy key tl b := by
          simp [overwriteBy, hhd]
        have hmem' : a ∈ tl := by
          rcases List.mem_cons.mp hmem with h | h
          · exact absurd (by rw [h] at hkey; exact hkey.symm) hhd
          · exact h
        rw [hstep, List.find?_cons_of_neg]
        · exact ih hmem'
        · simp only [beq_iff_eq]
          intro hcontra
          exact hhd (hcontra.trans hkey.symm)

/-- Rows whose key differs from the written row's key survive a
write-back unchanged. -/
theorem mem_overwriteBy_of_ne {α : Type} (key : α → Nat) (l : List α) (b : α)
    {c : α} (hc : c ∈ l) (hne : key c ≠ key b) :
    c ∈ overwriteBy key l b := by
  have h1 := List.mem_map_of_mem (fun x => if key x == key b then b else x) hc
  simp only [overwriteBy]
  simpa [hne] using h1

/-- Every member of a written-back list is either the written row or an
original row whose key differs from the written row's key. -/
theorem mem_overwriteBy_elim {α : Type} (key : α → Nat) (l : List α) (b : α)
    {c : α} (hc : c ∈ overwriteBy key l b) :
    c = b ∨ (c ∈ l ∧ key c ≠ key b) := by
  rcases List.mem_map.mp hc with ⟨x, hx, hfx⟩
  by_cases h : key x = key b
  · left
    simpa [h] using hfx.symm
  · right
    have : (if key x == key b then b else x) = x := by simp [h]
    rw [this] at hfx
    exact ⟨hfx ▸ hx, hfx ▸ h⟩

/-- A successful email lookup yields a member row with the looked-up email
that is not soft-deleted. -/
theorem findUserByEmail_some {db : DB} {email : String} {u : User}
    (h : findUserByEmail db email = some u) :
    u ∈ db.users ∧ u.email = email ∧ u.deleted_at = none := by
  unfold findUserByEmail at h
  have hp := List.find?_some h
  simp only [Bool.and_eq_true, beq_iff_eq] at hp
  exact ⟨List.mem_of_find?_eq_some h, hp.1, hp.2⟩

/-- When every user row carrying the email is soft-deleted, the email
lookup misses. -/
theorem findUserByEmail_none {db : DB} {email : String}
    (h : ∀ u ∈ db.users, u.email = email → u.deleted_at ≠ none) :
    findUserByEmail db email = none := by
  unfold findUserByEmail
  rw [List.find?_eq_none]
  intro u hu
  simp only [Bool.and_eq_true, beq_iff_eq, not_and]
  intro he hd
  exact h u hu he hd

/-- When every session row carrying the hash is revoked, the non-revoked
lookup used by `refresh_session` misses. -/
theorem findActiveSessionByHash_none {db : DB} {h : String}
    (hall : ∀ s ∈ db.sessions, s.refresh_token_hash = h → s.is_revoked = true) :
    findActiveSessionByHash db h = none := by
  unfold findActiveSessionByHash
  rw [List.find?_eq_none]
  intro s hs
  simp only [Bool.and_eq_true, beq_iff_eq, not_and]
  intro hh hr
  rw [hall s hs hh] at hr
  cases hr

/-- C10: registration fails with the email-already-registered error iff a
user row with exactly the submitted email exists and is not soft-deleted;
when every row with that email is soft-deleted, registration succeeds and
appends a fresh live user with that email, so a soft-deleted email can be
registered again as a new account. -/
theorem C10_register_email_uniqueness (env : Env) (db : DB) (email password full_name : String) :
    ((create_user env db email password full_name).2 = .error "Email already registered" ↔
      ∃ u ∈ db.users, u.email = email ∧ u.deleted_at = none) ∧
    ((∀ u ∈ db.users, u.email = email → u.deleted_at ≠ none) →
      (create_user env db email password full_name).2 = .ok db.next_user_id ∧
      ∃ u ∈ (create_user env db email password full_name).1.users,
        u.id = db.next_user_id ∧ u.email = email ∧ u.deleted_at = none) := by
  constructor
  · constructor
    · intro herr
      cases hf : findUserByEmail db email with
      | none =>
          unfold create_user at herr
          rw [hf] at herr
          simp at herr
      | some u =>
          obtain ⟨hmem, he, hd⟩ := findUserByEmail_some hf
          exact ⟨u, hmem, he, hd⟩
    · rintro ⟨u, hmem, he, hd⟩
      have hf : findUserByEmail db email ≠ none := by
        intro hnone
        unfold findUserByEmail at hnone
        rw [List.find?_eq_none] at hnone
        have := hnone u hmem
        simp [he, hd] at this
      cases hf2 : findUserByEmail db email with
      | none => exact absurd hf2 hf
      | some v =>
          unfold create_user
          rw [hf2]
  · intro hnone
    have hf := findUserByEmail_none hnone
    unfold create_user
    rw [hf]
    refine ⟨rfl, ?_⟩
    refine ⟨{ id := db.next_user_id, email := email,
              password_hash := env.hash_password password, full_name := full_name,
              email_verification_token := some (env.hash_token env.generate_secure_token),
              email_verification_sent_at := some env.now }, ?_, rfl, rfl, rfl⟩
    simp [addAudit]

/-- A database whose only user carrying "gone@x" is soft-deleted. -/
def dbC10 : DB :=
  { users := [{ id := 0, email := "gone@x", password_hash := "pw", deleted_at := some 50 }]
    sessions := []
    backup_codes := []
    audit_logs := []
    next_user_id := 1
    next_session_id := 0 }

/-- Witness for C10 at a database whose only user with the email
"gone@x" is soft-deleted: registration succeeds again. -/
theorem C10_witness :
    (∀ u ∈ dbC10.users, u.email = "gone@x" → u.deleted_at ≠ none) ∧
    ((create_user testEnv dbC10 "gone@x" "newpw" "n").2 = .ok 1 ∧
      ∃ u ∈ (create_user testEnv dbC10 "gone@x" "newpw" "n").1.users,
        u.id = 1 ∧ u.email = "gone@x" ∧ u.deleted_at = none) :=
  ⟨by decide,
   (C10_register_email_uniqueness testEnv dbC10 "gone@x" "newpw" "n").2 (by decide)⟩

/-- C9: when every session row carrying the presented token's hash is
revoked, `refresh_session` rejects with the generic invalid-token error
and leaves the database untouched -- regardless of any `is_used` flag, the
reuse branch and its fleet-wide revocation never fire, because the session
lookup excludes revoked rows. -/
theorem C9_revoked_session_refresh (env : Env) (db : DB) (tok : String)
    (h : ∀ s ∈ db.sessions, s.refresh_token_hash = env.hash_token tok → s.is_revoked = true) :
    refresh_session env db tok = (db, .error "Invalid refresh token") := by
  have hf := @findActiveSessionByHash_none db (env.hash_token tok) h
  simp [refresh_session, hf]

/-- A database holding one revoked, already-used session for token hash
"T1". -/
def dbC9 : DB :=
  { users := []
    sessions := [{ id := 0, user_id := 1, refresh_token_hash := "T1",
                   expires_at := 200000, is_revoked := true, revoked_at := some 90000,
                   is_used := true, used_at := some 80000 }]
    backup_codes := []
    audit_logs := []
    next_user_id := 0
    next_session_id := 1 }

/-- Witness for C9: a revoked, used session is rejected with the generic
error and nothing is revoked beyond what already was. -/
theorem C9_witness :
    (∀ s ∈ dbC9.sessions, s.refresh_token_hash = testEnv.hash_token "T1" →
      s.is_revoked = true) ∧
    refresh_session testEnv dbC9 "T1" = (dbC9, .error "Invalid refresh token") :=
  ⟨by decide, C9_revoked_session_refresh testEnv dbC9 "T1" (by decide)⟩

/-- A billing store in which the free plan and its features are present,
so recomputation from the store is perfectly possible. -/
def bdbC3 : BillingDB :=
  { subscriptions := []
    plans := [{ id := 1, name := "free" }]
    plan_features := [{ plan_id := 1, feature_key := "live_trading_enabled",
                        feature_value := "false" }] }

/-- C3 counterexample: with the free plan fully available in the store, a
raising cache `get` (and likewise a raising cache `setex`) makes
`get_entitlements` fail the request with HTTP 500 instead of degrading to
the store recomputation -- which, as the third conjunct shows, would have
succeeded had the cache not raised. -/
theorem C3_counterexample :
    get_entitlements { get := .error (), set_ok := true } bdbC3 7 =
      .error entitlementsFailure ∧
    get_entitlements { get := .ok none, set_ok := false } bdbC3 7 =
      .error entitlementsFailure ∧
    get_entitlements { get := .ok none, set_ok := true } bdbC3 7 =
      .ok { plan_name := "free", features := [("live_trading_enabled", "false")],
            user_id := 7 } :=
  ⟨rfl, rfl, rfl⟩

/-- C3 amended: entitlement resolution is wrapped in a single catch-all
that converts any raising cache call (get or set) into an HTTP 500
failure; only when both cache calls succeed does a user without an active
subscription fall back to the free plan's feature set from the store, or
to the hardcoded default feature set when the free-plan row is missing,
and then the request does not fail. -/
theorem C3_amended (cache : CacheEnv) (bdb : BillingDB) (uid : Nat) :
    (cache.get = .error () → get_entitlements cache bdb uid = .error entitlementsFailure) ∧
    (cache.get = .ok none → cache.set_ok = false →
      get_entitlements cache bdb uid = .error entitlementsFailure) ∧
    (cache.get = .ok none → cache.set_ok = true →
      bdb.subscriptions.find? (fun s => s.user_id == uid && s.status == "active") = none →
      ((∀ free_plan, bdb.plans.find? (fun p => p.name == "free") = some free_plan →
          get_entitlements cache bdb uid =
            .ok { plan_name := "free", features := features_for_plan bdb free_plan.id,
                  user_id := uid }) ∧
        (bdb.plans.find? (fun p => p.name == "free") = none →
          get_entitlements cache bdb uid =
            .ok { plan_name := "free", features := hardcoded_free_defaults,
                  user_id := uid }))) := by
  refine ⟨?_, ?_, ?_⟩
  · intro hget
    unfold get_entitlements
    rw [hget]
  · intro hget hset
    unfold get_entitlements
    rw [hget]
    cases hsub : bdb.subscriptions.find? (fun s => s.user_id == uid && s.status == "active") with
    | some sub =>
        cases hplan : bdb.plans.find? (fun p => p.id == sub.plan_id) with
        | none => simp [hsub, hplan]
        | some plan => simp [hsub, hplan, hset]
    | none =>
        cases hfree : bdb.plans.find? (fun p => p.name == "free") with
        | some fp => simp [hsub, hfree, hset]
        | none => simp [hsub, hfree, hset]
  · intro hget hset hsub
    constructor
    · intro fp hfree
      unfold get_entitlements
      rw [hget]
      simp [hsub, hfree, hset]
    · intro hfree
      unfold get_entitlements
      rw [hget]
      simp [hsub, hfree, hset]

/-- Witness for C3 amended: a concrete outage on each cache call yields
the 500, and with a working cache the hardcoded defaults are served when
the free-plan row is absent. -/
theorem C3_witness :
    get_entitlements { get := .error (), set_ok := true } bdbC3 7 =
      .error entitlementsFailure ∧
    get_entitlements { get := .ok none, set_ok := false } bdbC3 7 =
      .error entitlementsFailure ∧
    get_entitlements { get := .ok none, set_ok := true }
        { subscriptions := [], plans := [], plan_features := [] } 7 =
      .ok { plan_name := "free", features := hardcoded_free_defaults, user_id := 7 } :=
  ⟨(C3_amended { get := .error (), set_ok := true } bdbC3 7).1 rfl,
   (C3_amended { get := .ok none, set_ok := false } bdbC3 7).2.1 rfl rfl,
   ((C3_amended { get := .ok none, set_ok := true }
      { subscriptions := [], plans := [], plan_features := [] } 7).2.2 rfl rfl rfl).2 rfl⟩

/-- Whatever the internal cause, a rejection from `authenticate_user`
surfaces out of the login endpoint as the one fixed 401 response. -/
theorem login_rejects_generic (env : Env) (db : DB) (email password : String)
    (mfa_code : Option String)
    (h : (authenticate_user env db email password).2.1 = none) :
    (login env db email password mfa_code).2 = .error (401, "Invalid email or password") := by
  unfold login
  cases hA : authenticate_user env db email password with
  | mk db1 r =>
      cases r with
      | mk uopt flag =>
          rw [hA] at h
          have h2 : uopt = none := h
          subst h2
          rfl

/-- C4: `initiate_password_reset`'s endpoint returns the identical success
body for every pair of submitted emails (existing or not), and the login
rejection is the byte-identical 401 response for all three failure causes:
no such user, account locked with an unexpired lock, and wrong password. -/
theorem C4_anti_enumeration (env : Env) (db : DB) (email email2 password : String)
    (mfa_code : Option String) :
    (forgot_password env db email).2 = (forgot_password env db email2).2 ∧
    (findUserByEmail db email = none →
      (login env db email password mfa_code).2 = .error (401, "Invalid email or password")) ∧
    (∀ user, findUserByEmail db email = some user →
      ((user.is_locked = true ∧ lockActive env user = true) →
        (login env db email password mfa_code).2 = .error (401, "Invalid email or password")) ∧
      ((user.is_locked = true → lockActive env user = false) →
        env.verify_password password user.password_hash = false →
        (login env db email password mfa_code).2 =
          .error (401, "Invalid email or password"))) := by
  refine ⟨rfl, ?_, ?_⟩
  · intro hf
    apply login_rejects_generic
    unfold authenticate_user
    rw [hf]
  · intro user hf
    constructor
    · rintro ⟨hl, hla⟩
      apply login_rejects_generic
      unfold authenticate_user
      rw [hf]
      simp [hl, hla]
    · intro hnl hv
      apply login_rejects_generic
      unfold authenticate_user
      rw [hf]
      by_cases hl : user.is_locked
      · simp [hl, hnl hl, hv]
      · simp [hl, hv]

/-- A user whose account is locked until well after `testEnv.now`. -/
def lockedUserC4 : User :=
  { id := 2, email := "locked@x", password_hash := "pw", is_locked := true,
    failed_login_attempts := 5, locked_until := some 200000 }

/-- A normal unlocked user. -/
def normUserC4 : User := { id := 3, email := "norm@x", password_hash := "pw" }

/-- Database for the anti-enumeration witness: one locked and one normal
user; "ghost@x" does not exist. -/
def dbC4 : DB :=
  { users := [lockedUserC4, normUserC4]
    sessions := []
    backup_codes := []
    audit_logs := []
    next_user_id := 4
    next_session_id := 0 }

/-- Witness for C4: the reset response is email-independent and the three
login failure causes all produce the very same 401 body. -/
theorem C4_witness :
    (forgot_password testEnv dbC4 "ghost@x").2 = (forgot_password testEnv dbC4 "norm@x").2 ∧
    (login testEnv dbC4 "ghost@x" "bad" none).2 = .error (401, "Invalid email or password") ∧
    (login testEnv dbC4 "locked@x" "bad" none).2 = .error (401, "Invalid email or password") ∧
    (login testEnv dbC4 "norm@x" "bad" none).2 = .error (401, "Invalid email or password") :=
  ⟨(C4_anti_enumeration testEnv dbC4 "ghost@x" "norm@x" "bad" none).1,
   (C4_anti_enumeration testEnv dbC4 "ghost@x" "norm@x" "bad" none).2.1 (by decide),
   ((C4_anti_enumeration testEnv dbC4 "locked@x" "norm@x" "bad" none).2.2
      lockedUserC4 (by decide)).1 (by decide),
   ((C4_anti_enumeration testEnv dbC4 "norm@x" "norm@x" "bad" none).2.2
      normUserC4 (by decide)).2 (by decide) (by decide)⟩

/-- A user flagged MFA-enabled whose stored secret is absent. -/
def absentSecretUser : User :=
  { id := 3, email := "absent@x", password_hash := "pw", mfa_enabled := true,
    mfa_secret := none }

/-- A user with MFA enabled and a stored secret but no backup codes. -/
def okSecretUser : User :=
  { id := 4, email := "ok@x", password_hash := "pw", mfa_enabled := true,
    mfa_secret := some "SEC" }

/-- Database for the absent-secret scenario. -/
def dbC7 : DB :=
  { users := [absentSecretUser, okSecretUser]
    sessions := []
    backup_codes := []
    audit_logs := []
    next_user_id := 5
    next_session_id := 0 }

/-- C7 counterexample: the user flagged `mfa_enabled` with no stored
secret is rejected through the very same ValueError-to-HTTP-401 channel
as an ordinary invalid MFA code -- both responses are client 401 errors
differing only in their detail string, so the absent-secret case is not
surfaced as a fatal precondition violation distinct from a retryable user
error. -/
theorem C7_counterexample :
    (verify_mfa_endpoint testEnv dbC7 "absent@x" "999999").2 =
      .error (401, "MFA is not enabled") ∧
    (verify_mfa_endpoint testEnv dbC7 "ok@x" "999999").2 =
      .error (401, "Invalid MFA code") ∧
    (∀ st1 d1 st2 d2,
      (verify_mfa_endpoint testEnv dbC7 "absent@x" "999999").2 = .error (st1, d1) →
      (verify_mfa_endpoint testEnv dbC7 "ok@x" "999999").2 = .error (st2, d2) →
      st1 = st2) := by
  refine ⟨rfl, rfl, ?_⟩
  intro st1 d1 st2 d2 h1 h2
  have e1 : st1 = 401 := by
    have : Except.error (401, "MFA is not enabled") =
        (Except.error (st1, d1) : Except HttpError LoginResponse) := by
      rw [← h1]
      rfl
    cases this
    rfl
  have e2 : st2 = 401 := by
    have : Except.error (401, "Invalid MFA code") =
        (Except.error (st2, d2) : Except HttpError LoginResponse) := by
      rw [← h2]
      rfl
    cases this
    rfl
  rw [e1, e2]

/-- C7 amended: when an MFA completion is attempted for a user whose MFA
secret is absent (or stored empty), the service rejects immediately with
`ValueError("MFA is not enabled")` and performs no state change -- not
even an audit record -- and the endpoint surfaces it as an HTTP 401 with
that message: the same client-error channel as an invalid code, only the
detail string differs. -/
theorem C7_absent_secret_rejection (env : Env) (db : DB) (user : User) (mfa_code : String)
    (h : user.mfa_secret = none ∨ user.mfa_secret = some "") :
    verify_mfa_and_complete_login env db user mfa_code = (db, .error "MFA is not enabled") ∧
    (∀ email, findUserByEmail db email = some user →
      (verify_mfa_endpoint env db email mfa_code).2 = .error (401, "MFA is not enabled") ∧
      (verify_mfa_endpoint env db email mfa_code).1 = db) := by
  have h1 : verify_mfa_and_complete_login env db user mfa_code =
      (db, .error "MFA is not enabled") := by
    rcases h with h | h
    · unfold verify_mfa_and_complete_login
      rw [h]
    · unfold verify_mfa_and_complete_login
      rw [h]
      simp [strFalsy]
  refine ⟨h1, ?_⟩
  intro email hf
  refine ⟨?_, ?_⟩ <;> simp [verify_mfa_endpoint, hf, h1]

/-- Witness for C7 amended, at the concrete absent-secret user. -/
theorem C7_witness :
    (absentSecretUser.mfa_secret = none ∨ absentSecretUser.mfa_secret = some "") ∧
    verify_mfa_and_complete_login testEnv dbC7 absentSecretUser "999999" =
      (dbC7, .error "MFA is not enabled") ∧
    (verify_mfa_endpoint testEnv dbC7 "absent@x" "999999").2 =
      .error (401, "MFA is not enabled") ∧
    (verify_mfa_endpoint testEnv dbC7 "absent@x" "999999").1 = dbC7 :=
  ⟨Or.inl rfl,
   (C7_absent_secret_rejection testEnv dbC7 absentSecretUser "999999" (Or.inl rfl)).1,
   ((C7_absent_secret_rejection testEnv dbC7 absentSecretUser "999999" (Or.inl rfl)).2
      "absent@x" (by decide)).1,
   ((C7_absent_secret_rejection testEnv dbC7 absentSecretUser "999999" (Or.inl rfl)).2
      "absent@x" (by decide)).2⟩

/-- Database for the MFA dispatch scenario: the MFA user additionally
holds an unused backup code whose stored hash matches the 6-digit numeric
candidate "123456" under the test verifier. -/
def dbC8 : DB :=
  { users := [okSecretUser]
    sessions := []
    backup_codes := [{ id := 7, user_id := 4, code_hash := "123456" }]
    audit_logs := []
    next_user_id := 5
    next_session_id := 0 }

/-- C8 counterexample: "123456" is a 6-digit numeric string and fails
TOTP verification, yet it is not rejected -- the service falls through to
the backup-code scan and redeems it as a backup code, marking the row
used. -/
theorem C8_counterexample :
    ("123456".length == 6 && allDigits "123456") = true ∧
    testEnv.verify_totp (testEnv.decrypt_field "SEC") "123456" = false ∧
    (verify_mfa_and_complete_login testEnv dbC8 okSecretUser "123456").2 = .ok true ∧
    backupCodeById (verify_mfa_and_complete_login testEnv dbC8 okSecretUser "123456").1 7 =
      some { id := 7, user_id := 4, code_hash := "123456", is_used := true,
             used_at := some 100000 } :=
  ⟨rfl, rfl, rfl, rfl⟩

/-- C8 amended: the dispatch tries TOTP first for 6-digit numeric codes
and succeeds there without touching the backup codes; every code for
which the TOTP branch does not succeed -- including a 6-digit numeric
code that fails TOTP verification -- falls through to the backup-code
scan, where the case-folded candidate is compared against the user's
unused backup-code rows, redeemed on the first match, and rejected with
the generic invalid-code error only when no row matches. -/
theorem C8_code_dispatch (env : Env) (db : DB) (user : User) (mfa_code sec : String)
    (hsec : user.mfa_secret = some sec) (hne : sec.data.isEmpty = false)
    (hen : user.mfa_enabled = true) :
    ((mfa_code.length == 6 && allDigits mfa_code &&
        env.verify_totp (env.decrypt_field sec) mfa_code) = true →
      (verify_mfa_and_complete_login env db user mfa_code).2 = .ok true ∧
      (verify_mfa_and_complete_login env db user mfa_code).1.backup_codes =
        db.backup_codes) ∧
    ((mfa_code.length == 6 && allDigits mfa_code &&
        env.verify_totp (env.decrypt_field sec) mfa_code) = false →
      ((unusedBackupCodes db user.id).find?
          (fun c => env.verify_password (strUpper mfa_code) c.code_hash) = none →
        (verify_mfa_and_complete_login env db user mfa_code).2 =
          .error "Invalid MFA code") ∧
      (∀ bc, (unusedBackupCodes db user.id).find?
          (fun c => env.verify_password (strUpper mfa_code) c.code_hash) = some bc →
        (verify_mfa_and_complete_login env db user mfa_code).2 = .ok true)) := by
  constructor
  · intro htotp
    unfold verify_mfa_and_complete_login
    rw [hsec]
    simp [strFalsy, hne, hen, htotp, writeUser, addAudit]
  · intro htotp
    constructor
    · intro hfind
      unfold verify_mfa_and_complete_login
      rw [hsec]
      simp [strFalsy, hne, hen, htotp, hfind]
    · intro bc hfind
      unfold verify_mfa_and_complete_login
      rw [hsec]
      simp [strFalsy, hne, hen, htotp, hfind]

/-- Witness for C8 amended at the fall-through input: "123456" fails
TOTP, matches the stored backup code, and is redeemed. -/
theorem C8_witness :
    ("123456".length == 6 && allDigits "123456" &&
        testEnv.verify_totp (testEnv.decrypt_field "SEC") "123456") = false ∧
    (verify_mfa_and_complete_login testEnv dbC8 okSecretUser "123456").2 = .ok true :=
  ⟨rfl,
   ((C8_code_dispatch testEnv dbC8 okSecretUser "123456" "SEC" rfl rfl rfl).2 rfl).2
     { id := 7, user_id := 4, code_hash := "123456" } rfl⟩

/-- A successful reset-token lookup yields a member row carrying the
hashed token. -/
theorem findUserByResetToken_some {db : DB} {th : String} {u : User}
    (h : findUserByResetToken db th = some u) :
    u ∈ db.users ∧ u.password_reset_token = some th ∧ u.deleted_at = none := by
  unfold findUserByResetToken at h
  have hp := List.find?_some h
  simp only [Bool.and_eq_true, beq_iff_eq] at hp
  exact ⟨List.mem_of_find?_eq_some h, hp.1, hp.2⟩

/-- After `_revoke_all_user_sessions`, every session of the user is
revoked. -/
theorem revoke_all_user_sessions_spec (env : Env) (db : DB) (uid : Nat) :
    ∀ s ∈ (revoke_all_user_sessions env db uid).sessions,
      s.user_id = uid → s.is_revoked = true := by
  intro s hs huid
  rcases List.mem_map.mp hs with ⟨s0, hs0, heq⟩
  by_cases hc : (s0.user_id == uid && s0.is_revoked == false) = true
  · rw [if_pos hc] at heq
    rw [← heq]
  · rw [if_neg hc] at heq
    subst heq
    simp only [Bool.and_eq_true, beq_iff_eq, not_and] at hc
    have := hc huid
    cases hrev : s0.is_revoked with
    | true => rfl
    | false => exact absurd hrev this

/-- Sessions of the user that were already revoked, and sessions of other
users, pass through `_revoke_all_user_sessions` with only their own
revocation state; in particular the session list stays a map of the old
one. -/
theorem revoke_all_user_sessions_users (env : Env) (db : DB) (uid : Nat) :
    (revoke_all_user_sessions env db uid).users = db.users := rfl

/-- C6: with a valid, unexpired reset token, `reset_password` succeeds,
replaces the user's password hash with the hash of the new password,
clears the reset token and its timestamp, and revokes every session of
that user; with no matching user, or with an expired token, it rejects
and the database (user record included) is unchanged. -/
theorem C6_reset_password (env : Env) (db : DB) (token new_password : String) :
    (findUserByResetToken db (env.hash_token token) = none →
      reset_password env db token new_password = (db, .error "Invalid reset token")) ∧
    (∀ user, findUserByResetToken db (env.hash_token token) = some user →
      ((∃ t, user.password_reset_sent_at = some t ∧ t + 3600 < env.now) →
        reset_password env db token new_password = (db, .error "Reset token has expired")) ∧
      ((∀ t, user.password_reset_sent_at = some t → env.now ≤ t + 3600) →
        (reset_password env db token new_password).2 = .ok () ∧
        userById (reset_password env db token new_password).1 user.id =
          some { user with password_hash := env.hash_password new_password,
                           password_reset_token := none,
                           password_reset_sent_at := none } ∧
        (∀ s ∈ (reset_password env db token new_password).1.sessions,
          s.user_id = user.id → s.is_revoked = true))) := by
  constructor
  · intro hf
    simp only [reset_password]
    rw [hf]
  · intro user hf
    constructor
    · rintro ⟨t, hsent, hexp⟩
      simp only [reset_password]
      rw [hf]
      simp [hsent, hexp]
    · intro hfresh
      have hmem := (findUserByResetToken_some hf).1
      have hok : reset_password env db token new_password =
          (revoke_all_user_sessions env
            (writeUser db { user with password_hash := env.hash_password new_password,
                                      password_reset_token := none,
                                      password_reset_sent_at := none }) user.id, .ok ()) := by
        simp only [reset_password]
        rw [hf]
        cases hsent : user.password_reset_sent_at with
        | none => simp [hsent]
        | some t =>
            have := hfresh t hsent
            simp [hsent, Nat.not_lt.mpr this]
      refine ⟨by rw [hok], ?_, ?_⟩
      · rw [hok]
        unfold userById
        rw [revoke_all_user_sessions_users]
        unfold writeUser
        exact find_overwriteBy User.id db.users user _ hmem rfl
      · rw [hok]
        exact revoke_all_user_sessions_spec env _ user.id

/-- A user carrying a fresh reset token, plus a live session, for the C6
witness. -/
def dbC6 : DB :=
  { users := [{ id := 9, email := "r@x", password_hash := "old",
                password_reset_token := some "RST", password_reset_sent_at := some 99000 }]
    sessions := [{ id := 0, user_id := 9, refresh_token_hash := "S1", expires_at := 200000 }]
    backup_codes := []
    audit_logs := []
    next_user_id := 10
    next_session_id := 1 }

/-- Witness for C6: the concrete reset replaces the hash, clears the
token fields and revokes the user's session; `testEnv.now - 99000` is
within the one-hour window. -/
theorem C6_witness :
    (reset_password testEnv dbC6 "RST" "brandnew").2 = .ok () ∧
    userById (reset_password testEnv dbC6 "RST" "brandnew").1 9 =
      some { id := 9, email := "r@x", password_hash := "brandnew",
             password_reset_token := none, password_reset_sent_at := none } ∧
    (∀ s ∈ (reset_password testEnv dbC6 "RST" "brandnew").1.sessions,
      s.user_id = 9 → s.is_revoked = true) :=
  ((C6_reset_password testEnv dbC6 "RST" "brandnew").2
    { id := 9, email := "r@x", password_hash := "old",
      password_reset_token := some "RST", password_reset_sent_at := some 99000 }
    (by decide)).2 (by decide)

/-- C1: presenting a refresh token whose session row exists, is not
revoked, is not expired, and is already marked used makes `refresh_session`
reject with the distinguished reuse error and revoke every session
belonging to that user, not just the presented one; consequently any
token all of whose matching session rows belong to that user -- such as
the successor token produced when the presented token was legitimately
redeemed -- is rejected on its next presentation. -/
theorem C1_reuse_detection (env : Env) (db : DB) (tok : String) (s : Session)
    (hfind : findActiveSessionByHash db (env.hash_token tok) = some s)
    (hexp : ¬ s.expires_at < env.now)
    (hused : s.is_used = true) :
    (refresh_session env db tok).2 =
      .error "Token reuse detected. All sessions have been revoked." ∧
    (∀ x ∈ (refresh_session env db tok).1.sessions, x.user_id = s.user_id →
      x.is_revoked = true) ∧
    (∀ tok2, (∀ x ∈ db.sessions, x.refresh_token_hash = env.hash_token tok2 →
        x.user_id = s.user_id) →
      (refresh_session env (refresh_session env db tok).1 tok2).2 =
        .error "Invalid refresh token") := by
  have hstep : refresh_session env db tok =
      (revoke_all_user_sessions env db s.user_id,
       .error "Token reuse detected. All sessions have been revoked.") := by
    simp only [refresh_session]
    rw [hfind]
    simp [hexp, hused]
  refine ⟨by rw [hstep], ?_, ?_⟩
  · rw [hstep]
    exact revoke_all_user_sessions_spec env db s.user_id
  · intro tok2 hall
    rw [hstep]
    have hrej : ∀ x ∈ (revoke_all_user_sessions env db s.user_id).sessions,
        x.refresh_token_hash = env.hash_token tok2 → x.is_revoked = true := by
      intro x hx hh
      rcases List.mem_map.mp hx with ⟨x0, hx0, heq⟩
      by_cases hc : (x0.user_id == s.user_id && x0.is_revoked == false) = true
      · rw [if_pos hc] at heq
        rw [← heq]
      · rw [if_neg hc] at heq
        subst heq
        simp only [Bool.and_eq_true, beq_iff_eq, not_and] at hc
        have huser : x0.user_id = s.user_id := hall x0 hx0 hh
        have := hc huser
        cases hrev : x0.is_revoked with
        | true => rfl
        | false => exact absurd hrev this
    have hf2 := @findActiveSessionByHash_none
      (revoke_all_user_sessions env db s.user_id) (env.hash_token tok2) hrej
    simp [refresh_session, hf2]

/-- Database for the reuse scenario: one user holding one fresh session
for token "T1". -/
def dbC1 : DB :=
  { users := [{ id := 1, email := "a@x", password_hash := "pw" }]
    sessions := [{ id := 0, user_id := 1, refresh_token_hash := "T1", expires_at := 200000 }]
    backup_codes := []
    audit_logs := []
    next_user_id := 2
    next_session_id := 1 }

/-- The state after "T1" was legitimately redeemed once, producing "RT1". -/
def dbC1used : DB := (refresh_session testEnv dbC1 "T1").1

/-- The row of "T1" after its redemption: marked used. -/
def sUsedC1 : Session :=
  { id := 0, user_id := 1, refresh_token_hash := "T1", expires_at := 200000,
    is_used := true, used_at := some 100000 }

/-- Witness for C1, running the spec's scenario end to end: redeeming
"T1" yields the pair ("AT1", "RT1"); redeeming "T1" again returns the
reuse error and leaves every session of user 1 revoked; redeeming the
successor "RT1" afterwards is rejected. -/
theorem C1_witness :
    (refresh_session testEnv dbC1 "T1").2 = .ok ("AT1", "RT1") ∧
    (refresh_session testEnv dbC1used "T1").2 =
      .error "Token reuse detected. All sessions have been revoked." ∧
    (∀ x ∈ (refresh_session testEnv dbC1used "T1").1.sessions,
      x.user_id = 1 → x.is_revoked = true) ∧
    (refresh_session testEnv (refresh_session testEnv dbC1used "T1").1 "RT1").2 =
      .error "Invalid refresh token" :=
  ⟨rfl,
   (C1_reuse_detection testEnv dbC1used "T1" sUsedC1 (by decide) (by decide) rfl).1,
   (C1_reuse_detection testEnv dbC1used "T1" sUsedC1 (by decide) (by decide) rfl).2.1,
   (C1_reuse_detection testEnv dbC1used "T1" sUsedC1 (by decide) (by decide) rfl).2.2
     "RT1" (by decide)⟩

/-- When the TOTP branch does not fire and no unused backup code of the
user matches the case-folded candidate, MFA completion rejects with the
generic invalid-code error. -/
theorem verify_mfa_error_of_no_match (env : Env) (db2 : DB) (u2 : User)
    (mfa_code sec : String)
    (hsec : u2.mfa_secret = some sec) (hne : sec.data.isEmpty = false)
    (hen : u2.mfa_enabled = true)
    (htotp : (mfa_code.length == 6 && allDigits mfa_code &&
        env.verify_totp (env.decrypt_field sec) mfa_code) = false)
    (hfind : (unusedBackupCodes db2 u2.id).find?
        (fun c => env.verify_password (strUpper mfa_code) c.code_hash) = none) :
    (verify_mfa_and_complete_login env db2 u2 mfa_code).2 = .error "Invalid MFA code" := by
  unfold verify_mfa_and_complete_login
  rw [hsec]
  simp [strFalsy, hne, hen, htotp, hfind]

/-- C5: when an MFA completion is satisfied by a backup code (the TOTP
branch does not fire and the case-folded candidate matches a first unused
row `bc`, the only row of the user it matches at all), the redemption
succeeds, flips exactly that row's `is_used` from false to true with the
redemption timestamp, leaves every other backup-code row of the database
untouched, and a second redemption of the same code afterwards fails with
the generic invalid-code error. -/
theorem C5_backup_code_single_use (env : Env) (db : DB) (user : User)
    (mfa_code sec : String) (bc : MFABackupCode)
    (hsec : user.mfa_secret = some sec) (hne : sec.data.isEmpty = false)
    (hen : user.mfa_enabled = true)
    (htotp : (mfa_code.length == 6 && allDigits mfa_code &&
        env.verify_totp (env.decrypt_field sec) mfa_code) = false)
    (hfind : (unusedBackupCodes db user.id).find?
        (fun c => env.verify_password (strUpper mfa_code) c.code_hash) = some bc)
    (huniq : ∀ c ∈ db.backup_codes, c.user_id = user.id →
        env.verify_password (strUpper mfa_code) c.code_hash = true → c.id = bc.id) :
    (verify_mfa_and_complete_login env db user mfa_code).2 = .ok true ∧
    bc.is_used = false ∧
    backupCodeById (verify_mfa_and_complete_login env db user mfa_code).1 bc.id =
      some { bc with is_used := true, used_at := some env.now } ∧
    (∀ c ∈ db.backup_codes, c.id ≠ bc.id →
      c ∈ (verify_mfa_and_complete_login env db user mfa_code).1.backup_codes) ∧
    (verify_mfa_and_complete_login env
        (verify_mfa_and_complete_login env db user mfa_code).1
        { user with last_login_at := some env.now } mfa_code).2 =
      .error "Invalid MFA code" := by
  have hbcmem := List.mem_of_find?_eq_some hfind
  have hbcfilter := List.mem_filter.mp hbcmem
  have hbcprops : bc.user_id = user.id ∧ bc.is_used = false := by
    have := hbcfilter.2
    simp only [Bool.and_eq_true, beq_iff_eq] at this
    exact this
  have hstep : verify_mfa_and_complete_login env db user mfa_code =
      (addAudit (writeUser
          (writeBackupCode db { bc with is_used := true, used_at := some env.now })
          { user with last_login_at := some env.now })
        (some user.id) "login_mfa_backup_code_used" true, .ok true) := by
    unfold verify_mfa_and_complete_login
    rw [hsec]
    simp [strFalsy, hne, hen, htotp, hfind]
  have hcodes : (verify_mfa_and_complete_login env db user mfa_code).1.backup_codes =
      overwriteBy MFABackupCode.id db.backup_codes
        { bc with is_used := true, used_at := some env.now } := by
    rw [hstep]
    rfl
  refine ⟨by rw [hstep], hbcprops.2, ?_, ?_, ?_⟩
  · unfold backupCodeById
    rw [hcodes]
    exact find_overwriteBy MFABackupCode.id db.backup_codes bc _ hbcfilter.1 rfl
  · intro c hc hne2
    rw [hcodes]
    exact mem_overwriteBy_of_ne MFABackupCode.id db.backup_codes _ hc hne2
  · have hfind2 : (unusedBackupCodes (addAudit (writeUser
          (writeBackupCode db { bc with is_used := true, used_at := some env.now })
          { user with last_login_at := some env.now })
        (some user.id) "login_mfa_backup_code_used" true) user.id).find?
        (fun c => env.verify_password (strUpper mfa_code) c.code_hash) = none := by
      rw [List.find?_eq_none]
      intro c hc
      have hcf := List.mem_filter.mp hc
      have hcprops : c.user_id = user.id ∧ c.is_used = false := by
        have := hcf.2
        simp only [Bool.and_eq_true, beq_iff_eq] at this
        exact this
      intro hvc
      have hcmem : c ∈ overwriteBy MFABackupCode.id db.backup_codes
          { bc with is_used := true, used_at := some env.now } := hcf.1
      rcases mem_overwriteBy_elim MFABackupCode.id db.backup_codes _ hcmem with heq | ⟨horig, hid⟩
      · rw [heq] at hcprops
        exact absurd hcprops.2 (by simp)
      · exact hid (huniq c horig hcprops.1 hvc)
    rw [hstep]
    exact verify_mfa_error_of_no_match env _ _ mfa_code sec hsec hne hen htotp hfind2

/-- The non-numeric backup code "CODEX1" stored (under the identity test
hash) for the MFA user of `okSecretUser`, together with a second unused
code that must survive the redemption untouched. -/
def dbC5 : DB :=
  { users := [okSecretUser]
    sessions := []
    backup_codes := [{ id := 11, user_id := 4, code_hash := "CODEX1" },
                     { id := 12, user_id := 4, code_hash := "CODEX2" }]
    audit_logs := []
    next_user_id := 5
    next_session_id := 0 }

/-- Witness for C5: redeeming "codex1" (case-folded to "CODEX1") succeeds
once, marks exactly row 11 used, keeps row 12, and fails the second
time with the generic error. -/
theorem C5_witness :
    (verify_mfa_and_complete_login testEnv dbC5 okSecretUser "codex1").2 = .ok true ∧
    backupCodeById (verify_mfa_and_complete_login testEnv dbC5 okSecretUser "codex1").1 11 =
      some { id := 11, user_id := 4, code_hash := "CODEX1", is_used := true,
             used_at := some 100000 } ∧
    ({ id := 12, user_id := 4, code_hash := "CODEX2" } : MFABackupCode) ∈
      (verify_mfa_and_complete_login testEnv dbC5 okSecretUser "codex1").1.backup_codes ∧
    (verify_mfa_and_complete_login testEnv
        (verify_mfa_and_complete_login testEnv dbC5 okSecretUser "codex1").1
        { okSecretUser with last_login_at := some 100000 } "codex1").2 =
      .error "Invalid MFA code" := by
  have h := C5_backup_code_single_use testEnv dbC5 okSecretUser "codex1" "SEC"
    { id := 11, user_id := 4, code_hash := "CODEX1" }
    rfl rfl rfl (by decide) (by decide) (by decide)
  exact ⟨h.1, h.2.2.1, h.2.2.2.1 { id := 12, user_id := 4, code_hash := "CODEX2" }
    (by decide) (by decide), h.2.2.2.2⟩

/-- C2: the lockout state machine of `authenticate_user`, for a user row
found by the email lookup.
(a) On a wrong password while not locked, the failure counter increments
by exactly one, and the account transitions to locked (stamping
`locked_until` thirty minutes ahead) precisely when the new counter
reaches `MAX_FAILED_ATTEMPTS` (5).
(b) While locked with the lock not yet expired, the attempt is rejected
and no user row changes: the counter is neither incremented nor
decremented.
(c) Once `locked_until` has elapsed (or is absent), the next attempt
lazily unlocks the account and resets the counter: a wrong password then
counts as attempt 1 of a new window, a correct one completes with the
counter at 0. -/
theorem C2_lockout_state_machine (env : Env) (db : DB) (email password : String) (user : User)
    (hfind : findUserByEmail db email = some user) :
    (user.is_locked = false → env.verify_password password user.password_hash = false →
      ∃ u1, userById (authenticate_user env db email password).1 user.id = some u1 ∧
        u1.failed_login_attempts = user.failed_login_attempts + 1 ∧
        (u1.is_locked = true ↔ MAX_FAILED_ATTEMPTS ≤ user.failed_login_attempts + 1) ∧
        (MAX_FAILED_ATTEMPTS ≤ user.failed_login_attempts + 1 →
          u1.locked_until = some (env.now + LOCKOUT_DURATION_MINUTES * 60)) ∧
        (authenticate_user env db email password).2.1 = none) ∧
    (user.is_locked = true → lockActive env user = true →
      (authenticate_user env db email password).1.users = db.users ∧
      (authenticate_user env db email password).2.1 = none) ∧
    (user.is_locked = true → lockActive env user = false →
      (env.verify_password password user.password_hash = false →
        ∃ u1, userById (authenticate_user env db email password).1 user.id = some u1 ∧
          u1.failed_login_attempts = 1 ∧ u1.is_locked = false) ∧
      (env.verify_password password user.password_hash = true →
        ∃ u1, (authenticate_user env db email password).2.1 = some u1 ∧
          u1.failed_login_attempts = 0 ∧ u1.is_locked = false)) := by
  have hmem := (findUserByEmail_some hfind).1
  refine ⟨?_, ?_, ?_⟩
  · intro hl hv
    by_cases hthr : MAX_FAILED_ATTEMPTS ≤ user.failed_login_attempts + 1
    · have hstep : authenticate_user env db email password =
          (addAudit (writeUser db
              { user with failed_login_attempts := user.failed_login_attempts + 1,
                          is_locked := true,
                          locked_until := some (env.now + LOCKOUT_DURATION_MINUTES * 60) })
            (some user.id) "login_failed" false, none, false) := by
        unfold authenticate_user
        rw [hfind]
        simp [hl, hv, hthr]
      refine ⟨{ user with failed_login_attempts := user.failed_login_attempts + 1, is_locked := true, locked_until := some (env.now + LOCKOUT_DURATION_MINUTES * 60) }, ?_, rfl, by simp [hthr], fun _ => rfl, by rw [hstep]⟩
      rw [hstep]
      exact find_overwriteBy User.id db.users user _ hmem rfl
    · have hstep : authenticate_user env db email password =
          (addAudit (writeUser db
              { user with failed_login_attempts := user.failed_login_attempts + 1 })
            (some user.id) "login_failed" false, none, false) := by
        unfold authenticate_user
        rw [hfind]
        simp [hl, hv, hthr]
      refine ⟨{ user with failed_login_attempts := user.failed_login_attempts + 1 }, ?_, rfl, by simp [hl, hthr], fun h => absurd h hthr, by rw [hstep]⟩
      rw [hstep]
      exact find_overwriteBy User.id db.users user _ hmem rfl
  · intro hl hla
    have hstep : authenticate_user env db email password =
        (addAudit db (some user.id) "login_failed" false, none, false) := by
      unfold authenticate_user
      rw [hfind]
      simp [hl, hla]
    exact ⟨by rw [hstep]; rfl, by rw [hstep]⟩
  · intro hl hla
    constructor
    · intro hv
      have hstep : authenticate_user env db email password =
          (addAudit (writeUser db
              { user with is_locked := false, locked_until := none,
                          failed_login_attempts := 1 })
            (some user.id) "login_failed" false, none, false) := by
        unfold authenticate_user
        rw [hfind]
        simp [hl, hla, hv, MAX_FAILED_ATTEMPTS]
      refine ⟨{ user with is_locked := false, locked_until := none, failed_login_attempts := 1 }, ?_, rfl, rfl⟩
      rw [hstep]
      exact find_overwriteBy User.id db.users user _ hmem rfl
    · intro hv
      by_cases hm : user.mfa_enabled
      · have hstep : authenticate_user env db email password =
            (writeUser db { user with is_locked := false, locked_until := none, failed_login_attempts := 0 }, some { user with is_locked := false, locked_until := none, failed_login_attempts := 0 }, true) := by
          unfold authenticate_user
          rw [hfind]
          simp [hl, hla, hv, hm]
        exact ⟨{ user with is_locked := false, locked_until := none, failed_login_attempts := 0 }, by rw [hstep], rfl, rfl⟩
      · have hstep : authenticate_user env db email password =
            (addAudit (writeUser db { user with is_locked := false, locked_until := none, failed_login_attempts := 0, last_login_at := some env.now }) (some user.id) "login" true, some { user with is_locked := false, locked_until := none, failed_login_attempts := 0, last_login_at := some env.now }, false) := by
          unfold authenticate_user
          rw [hfind]
          simp [hl, hla, hv, hm]
        exact ⟨{ user with is_locked := false, locked_until := none, failed_login_attempts := 0, last_login_at := some env.now }, by rw [hstep], rfl, rfl⟩

/-- A user one failed attempt away from lockout. -/
def userA : User := { id := 20, email := "a2@x", password_hash := "pw",
                      failed_login_attempts := 4 }

/-- Database holding `userA`. -/
def dbA : DB :=
  { users := [userA], sessions := [], backup_codes := [], audit_logs := []
    next_user_id := 21, next_session_id := 0 }

/-- A locked user whose lock has already expired at `testEnv.now`. -/
def userExp : User := { id := 21, email := "e@x", password_hash := "pw",
                        is_locked := true, failed_login_attempts := 5,
                        locked_until := some 90000 }

/-- Database holding `userExp`. -/
def dbExp : DB :=
  { users := [userExp], sessions := [], backup_codes := [], audit_logs := []
    next_user_id := 22, next_session_id := 0 }

/-- Witness for C2: the fifth consecutive failure locks `userA` thirty
minutes ahead; the still-locked `lockedUserC4` is rejected with no row
change; the expired lock of `userExp` resets lazily -- a failure counts
as attempt 1, a success leaves the counter at 0. -/
theorem C2_witness :
    (∃ u1, userById (authenticate_user testEnv dbA "a2@x" "bad").1 userA.id = some u1 ∧
      u1.failed_login_attempts = userA.failed_login_attempts + 1 ∧
      (u1.is_locked = true ↔ MAX_FAILED_ATTEMPTS ≤ userA.failed_login_attempts + 1) ∧
      (MAX_FAILED_ATTEMPTS ≤ userA.failed_login_attempts + 1 →
        u1.locked_until = some (testEnv.now + LOCKOUT_DURATION_MINUTES * 60)) ∧
      (authenticate_user testEnv dbA "a2@x" "bad").2.1 = none) ∧
    ((authenticate_user testEnv dbC4 "locked@x" "bad").1.users = dbC4.users ∧
      (authenticate_user testEnv dbC4 "locked@x" "bad").2.1 = none) ∧
    (∃ u1, userById (authenticate_user testEnv dbExp "e@x" "bad").1 userExp.id = some u1 ∧
      u1.failed_login_attempts = 1 ∧ u1.is_locked = false) ∧
    (∃ u1, (authenticate_user testEnv dbExp "e@x" "pw").2.1 = some u1 ∧
      u1.failed_login_attempts = 0 ∧ u1.is_locked = false) :=
  ⟨(C2_lockout_state_machine testEnv dbA "a2@x" "bad" userA (by decide)).1
      (by decide) (by decide),
   (C2_lockout_state_machine testEnv dbC4 "locked@x" "bad" lockedUserC4 (by decide)).2.1
      (by decide) (by decide),
   ((C2_lockout_state_machine testEnv dbExp "e@x" "bad" userExp (by decide)).2.2
      (by decide) (by decide)).1 (by decide),
   ((C2_lockout_state_machine testEnv dbExp "e@x" "pw" userExp (by decide)).2.2
      (by decide) (by decide)).2 (by decide)⟩

end SSB


